import Mathlib

/-!
Shallow embedding of the geo-travel-validator core (src/types.ts and the
bundled index.ts) and verification of its specification.

Modelling choices:
* A TypeScript `number` is modelled by the type `JSNum`: NaN, the two
  infinities, and a finite value abstracted as a real number.  Signed zero is
  identified with zero (no claim depends on the sign of zero).
* A `LoginEvent.timestamp` is a JavaScript runtime value that may or may not
  be a `Date` object; a `Date` object's internal time value is either an
  integer count of milliseconds or NaN (an Invalid Date).  This is the type
  `JSTimestamp`.
* `throw new Error(...)` is modelled by `Except EvalError`; the two error
  messages of `validateCoordinates` become `invalidLatitude` /
  `invalidLongitude` (together: the InvalidCoordinate kind) and the
  timestamp-check message becomes `invalidTimestamp`.
* `parseFloat(x.toFixed(p))` is modelled by `jsRound`: rounding to `p`
  fractional digits to the nearest value, ties toward the larger value,
  which is `toFixed`'s tie rule; NaN and the infinities pass through
  unchanged, as they do through `toFixed`/`parseFloat`.
-/

namespace GeoTravel

/-- A JavaScript runtime number: NaN, positive or negative infinity, or a
finite value (finite IEEE-754 doubles abstracted as reals). -/
inductive JSNum where
  | nan
  | posInf
  | negInf
  | fin (x : ℝ)

/-- A JavaScript value sitting in the `timestamp` field: either not a `Date`
object at all, or a `Date` whose internal time value is NaN (`date none`,
an Invalid Date) or an integer number of milliseconds (`date (some n)`). -/
inductive JSTimestamp where
  | notDate
  | date (timeMs : Option ℤ)
  deriving DecidableEq

noncomputable section
open scoped Classical

/-- JavaScript `<=` on numbers: any comparison with NaN is false. -/
def jsLe : JSNum → JSNum → Bool
  | .nan, _ => false
  | _, .nan => false
  | .negInf, _ => true
  | _, .negInf => false
  | _, .posInf => true
  | .posInf, _ => false
  | .fin x, .fin y => if x ≤ y then true else false

/-- JavaScript `<` on numbers: any comparison with NaN is false. -/
def jsLt : JSNum → JSNum → Bool
  | .nan, _ => false
  | _, .nan => false
  | .negInf, .negInf => false
  | .negInf, _ => true
  | _, .negInf => false
  | .posInf, _ => false
  | _, .posInf => true
  | .fin x, .fin y => if x < y then true else false

/-- JavaScript subtraction: NaN propagates, same-signed infinities give NaN. -/
def jsSub : JSNum → JSNum → JSNum
  | .nan, _ => .nan
  | _, .nan => .nan
  | .fin x, .fin y => .fin (x - y)
  | .posInf, .posInf => .nan
  | .posInf, _ => .posInf
  | .negInf, .negInf => .nan
  | .negInf, _ => .negInf
  | .fin _, .posInf => .negInf
  | .fin _, .negInf => .posInf

/-- JavaScript division (signed zero identified with zero: a finite value
divided by zero is given the sign of the numerator). -/
def jsDiv : JSNum → JSNum → JSNum
  | .nan, _ => .nan
  | _, .nan => .nan
  | .fin x, .fin y =>
      if y = 0 then (if x = 0 then .nan else if 0 < x then .posInf else .negInf)
      else .fin (x / y)
  | .fin _, _ => .fin 0
  | .posInf, .fin y => if 0 ≤ y then .posInf else .negInf
  | .negInf, .fin y => if 0 ≤ y then .negInf else .posInf
  | _, _ => .nan

/-- JavaScript strict equality of a number with the literal `0`. -/
def jsEqZero : JSNum → Bool
  | .fin x => if x = 0 then true else false
  | _ => false

/-- Rounding a real to `p` fractional digits, ties toward the larger value:
the integer-valued rounding performed by `Number.prototype.toFixed`. -/
def roundTo (p : ℕ) (x : ℝ) : ℝ := (round (x * 10 ^ p) : ℤ) / 10 ^ p

/-- `parseFloat(x.toFixed(p))` on a JavaScript number: NaN and the infinities
survive the round trip unchanged, finite values are rounded to `p`
fractional digits. -/
def jsRound (p : ℕ) : JSNum → JSNum
  | .nan => .nan
  | .posInf => .posInf
  | .negInf => .negInf
  | .fin x => .fin (roundTo p x)

/-- `Date.prototype.getTime` (also the numeric coercion used by the
relational operators on `Date`s): the internal milliseconds, or NaN. -/
def JSTimestamp.getTime : JSTimestamp → JSNum
  | .notDate => .nan
  | .date none => .nan
  | .date (some n) => .fin (n : ℝ)

/-- The `LoginEvent` interface of src/types.ts. -/
structure LoginEvent where
  timestamp : JSTimestamp
  latitude : ℝ
  longitude : ℝ

/-- The `TravelPossibility` result interface of src/types.ts. -/
structure TravelPossibility where
  possible : Bool
  requiredSpeedKmh : JSNum
  maxAllowedSpeedKmh : JSNum
  distanceKm : JSNum
  timeDifferenceMinutes : JSNum

/-- The errors thrown by the core: the timestamp check of
`isTravelPossible`, and the two range checks of `validateCoordinates`
(together the InvalidCoordinate kind of the spec). -/
inductive EvalError where
  | invalidTimestamp
  | invalidLatitude (value : ℝ)
  | invalidLongitude (value : ℝ)

/-- Whether an error is of the InvalidCoordinate kind. -/
def EvalError.isInvalidCoordinate : EvalError → Bool
  | .invalidTimestamp => false
  | .invalidLatitude _ => true
  | .invalidLongitude _ => true

/-- `const EARTH_RADIUS_KM = 6371`. -/
def EARTH_RADIUS_KM : ℝ := 6371

/-- `const DEFAULT_MAX_SPEED_KMH = 1200`. -/
def DEFAULT_MAX_SPEED_KMH : JSNum := .fin 1200

/-- `toRadians(degrees)`: degrees × π / 180. -/
def toRadians (degrees : ℝ) : ℝ := degrees * (Real.pi / 180)

/-- `Math.atan2(y, x)` (signed zero identified with zero). -/
def atan2 (y x : ℝ) : ℝ :=
  if 0 < x then Real.arctan (y / x)
  else if x = 0 then
    if 0 < y then Real.pi / 2 else if y < 0 then -(Real.pi / 2) else 0
  else if 0 ≤ y then Real.arctan (y / x) + Real.pi
  else Real.arctan (y / x) - Real.pi

/-- `validateCoordinates(lat, lon)`: throws on latitude outside [-90, 90],
then on longitude outside [-180, 180]. -/
def validateCoordinates (lat lon : ℝ) : Except EvalError Unit :=
  if lat < -90 ∨ lat > 90 then .error (.invalidLatitude lat)
  else if lon < -180 ∨ lon > 180 then .error (.invalidLongitude lon)
  else .ok ()

/-- The arithmetic core of `haversineDistance`, after validation: the
Haversine formula exactly as written in the source (note the source groups
the second summand as sin²(dLon/2) · cos(lat1Rad) · cos(lat2Rad)). -/
def hav (lat1 lon1 lat2 lon2 : ℝ) : ℝ :=
  let dLat := toRadians (lat2 - lat1)
  let dLon := toRadians (lon2 - lon1)
  let lat1Rad := toRadians lat1
  let lat2Rad := toRadians lat2
  let a := Real.sin (dLat / 2) ^ 2 +
    Real.sin (dLon / 2) ^ 2 * Real.cos lat1Rad * Real.cos lat2Rad
  let c := 2 * atan2 (Real.sqrt a) (Real.sqrt (1 - a))
  EARTH_RADIUS_KM * c

/-- `haversineDistance(lat1, lon1, lat2, lon2)`: validates both coordinate
pairs in argument order, then computes the Haversine distance `hav`. -/
def haversineDistance (lat1 lon1 lat2 lon2 : ℝ) : Except EvalError ℝ := do
  validateCoordinates lat1 lon1
  validateCoordinates lat2 lon2
  return hav lat1 lon1 lat2 lon2

/-- `calculateRequiredSpeed(distanceKm, timeMinutes)`: Infinity when
`timeMinutes <= 0` (false for NaN, as in JavaScript), otherwise
`distanceKm / (timeMinutes / 60)`. -/
def calculateRequiredSpeed (distanceKm timeMinutes : JSNum) : JSNum :=
  if jsLe timeMinutes (.fin 0) = true then .posInf
  else jsDiv distanceKm (jsDiv timeMinutes (.fin 60))

/-- `isTravelPossible(login1, login2, maxSpeedKmh, decimalPrecision)`,
transcribed line by line from the source: the `instanceof Date` check, the
chronological ordering with `<=` / `>` on the two `Date`s, the zero-time
branch, and the general branch. -/
def isTravelPossible (login1 login2 : LoginEvent) (maxSpeedKmh : JSNum)
    (decimalPrecision : ℕ) : Except EvalError TravelPossibility :=
  if login1.timestamp = .notDate ∨ login2.timestamp = .notDate then
    .error .invalidTimestamp
  else
    let earlierLogin :=
      if jsLe login1.timestamp.getTime login2.timestamp.getTime = true
      then login1 else login2
    let laterLogin :=
      if jsLt login2.timestamp.getTime login1.timestamp.getTime = true
      then login1 else login2
    let timeDiffMs := jsSub laterLogin.timestamp.getTime earlierLogin.timestamp.getTime
    let timeDiffMinutes := jsDiv timeDiffMs (.fin (1000 * 60))
    if jsEqZero timeDiffMinutes = true then
      if earlierLogin.latitude = laterLogin.latitude ∧
          earlierLogin.longitude = laterLogin.longitude then
        .ok ⟨true, .fin 0, maxSpeedKmh, .fin 0, .fin 0⟩
      else
        (haversineDistance earlierLogin.latitude earlierLogin.longitude
            laterLogin.latitude laterLogin.longitude).bind fun distanceKm =>
          .ok ⟨false, .posInf, maxSpeedKmh,
            jsRound decimalPrecision (.fin distanceKm), .fin 0⟩
    else
      (haversineDistance earlierLogin.latitude earlierLogin.longitude
          laterLogin.latitude laterLogin.longitude).bind fun distanceKm =>
        let requiredSpeed := calculateRequiredSpeed (.fin distanceKm) timeDiffMinutes
        .ok ⟨jsLe requiredSpeed maxSpeedKmh,
          jsRound decimalPrecision requiredSpeed,
          maxSpeedKmh,
          jsRound decimalPrecision (.fin distanceKm),
          jsRound decimalPrecision timeDiffMinutes⟩

/-- Both coordinates in range: the condition under which
`validateCoordinates` succeeds. -/
def inRange (lat lon : ℝ) : Prop :=
  -90 ≤ lat ∧ lat ≤ 90 ∧ -180 ≤ lon ∧ lon ≤ 180

/-- A JavaScript number that is nonnegative (NaN is not). -/
def JSNum.Nonneg : JSNum → Prop
  | .nan => False
  | .posInf => True
  | .negInf => False
  | .fin x => 0 ≤ x

/-! ### Basic lemmas about the JavaScript number operations -/

theorem jsLe_fin_fin (x y : ℝ) : jsLe (.fin x) (.fin y) = true ↔ x ≤ y := by
  simp only [jsLe]
  split <;> simp_all

theorem jsLt_fin_fin (x y : ℝ) : jsLt (.fin x) (.fin y) = true ↔ x < y := by
  simp only [jsLt]
  split <;> simp_all

theorem jsEqZero_fin (x : ℝ) : jsEqZero (.fin x) = true ↔ x = 0 := by
  simp only [jsEqZero]
  split <;> simp_all

theorem jsDiv_fin_fin (x y : ℝ) (hy : y ≠ 0) :
    jsDiv (.fin x) (.fin y) = .fin (x / y) := by
  simp [jsDiv, hy]

theorem roundTo_nonneg (p : ℕ) (x : ℝ) (hx : 0 ≤ x) : 0 ≤ roundTo p x := by
  have h10 : (0:ℝ) < 10 ^ p := by positivity
  have hfl : (0:ℤ) ≤ round (x * 10 ^ p) := by
    rw [round_eq, Int.floor_nonneg]
    positivity
  exact div_nonneg (by exact_mod_cast hfl) h10.le

/-! ### The coordinate validator -/

theorem validateCoordinates_ok (lat lon : ℝ) (h : inRange lat lon) :
    validateCoordinates lat lon = .ok () := by
  obtain ⟨h1, h2, h3, h4⟩ := h
  unfold validateCoordinates
  rw [if_neg (by push_neg; exact ⟨h1, h2⟩), if_neg (by push_neg; exact ⟨h3, h4⟩)]

theorem validateCoordinates_error (lat lon : ℝ) (h : ¬ inRange lat lon) :
    ∃ e, validateCoordinates lat lon = .error e ∧ e.isInvalidCoordinate = true := by
  unfold inRange at h
  push_neg at h
  by_cases hlat : lat < -90 ∨ lat > 90
  · exact ⟨.invalidLatitude lat, by unfold validateCoordinates; rw [if_pos hlat], rfl⟩
  · push_neg at hlat
    refine ⟨.invalidLongitude lon, ?_, rfl⟩
    unfold validateCoordinates
    rw [if_neg (by push_neg; exact hlat)]
    rw [if_pos ?_]
    by_cases hlon : lon < -180
    · exact Or.inl hlon
    · push_neg at hlon
      exact Or.inr (h hlat.1 hlat.2 hlon)

/-! ### The distance calculator -/

theorem haversineDistance_ok (lat1 lon1 lat2 lon2 : ℝ)
    (h1 : inRange lat1 lon1) (h2 : inRange lat2 lon2) :
    haversineDistance lat1 lon1 lat2 lon2 = .ok (hav lat1 lon1 lat2 lon2) := by
  unfold haversineDistance
  rw [validateCoordinates_ok _ _ h1, validateCoordinates_ok _ _ h2]
  rfl

theorem haversineDistance_error (lat1 lon1 lat2 lon2 : ℝ)
    (h : ¬ (inRange lat1 lon1 ∧ inRange lat2 lon2)) :
    ∃ e, haversineDistance lat1 lon1 lat2 lon2 = .error e ∧
      e.isInvalidCoordinate = true := by
  by_cases h1 : inRange lat1 lon1
  · have h2 : ¬ inRange lat2 lon2 := fun h2 => h ⟨h1, h2⟩
    obtain ⟨e, he, hc⟩ := validateCoordinates_error lat2 lon2 h2
    refine ⟨e, ?_, hc⟩
    unfold haversineDistance
    rw [validateCoordinates_ok _ _ h1, he]
    rfl
  · obtain ⟨e, he, hc⟩ := validateCoordinates_error lat1 lon1 h1
    refine ⟨e, ?_, hc⟩
    unfold haversineDistance
    rw [he]
    rfl

theorem haversineDistance_ok_elim (lat1 lon1 lat2 lon2 d : ℝ)
    (h : haversineDistance lat1 lon1 lat2 lon2 = .ok d) :
    inRange lat1 lon1 ∧ inRange lat2 lon2 ∧ d = hav lat1 lon1 lat2 lon2 := by
  by_cases hr : inRange lat1 lon1 ∧ inRange lat2 lon2
  · rw [haversineDistance_ok _ _ _ _ hr.1 hr.2] at h
    exact ⟨hr.1, hr.2, (Except.ok.injEq _ _ ▸ h.symm :)⟩
  · obtain ⟨e, he, -⟩ := haversineDistance_error _ _ _ _ hr
    rw [he] at h
    exact absurd h (by simp)

theorem haversineDistance_error_isCoord (lat1 lon1 lat2 lon2 : ℝ) (e : EvalError)
    (h : haversineDistance lat1 lon1 lat2 lon2 = .error e) :
    e.isInvalidCoordinate = true := by
  by_cases hr : inRange lat1 lon1 ∧ inRange lat2 lon2
  · rw [haversineDistance_ok _ _ _ _ hr.1 hr.2] at h
    exact absurd h (by simp)
  · obtain ⟨e', he', hc⟩ := haversineDistance_error _ _ _ _ hr
    rw [he'] at h
    obtain rfl : e' = e := by simpa using h
    exact hc

/-! ### Arithmetic facts about the Haversine formula -/

theorem atan2_nonneg (y x : ℝ) (hy : 0 ≤ y) : 0 ≤ atan2 y x := by
  unfold atan2
  split_ifs with h1 h2 h3 h4 <;>
    first
      | (rw [← Real.arctan_zero]
         exact Real.arctan_strictMono.monotone (div_nonneg hy h1.le))
      | linarith [Real.neg_pi_div_two_lt_arctan (y / x), Real.pi_pos]

theorem hav_self (lat lon : ℝ) : hav lat lon lat lon = 0 := by
  simp [hav, toRadians, atan2, Real.sqrt_zero, Real.sqrt_one, Real.arctan_zero]

theorem hav_symm (lat1 lon1 lat2 lon2 : ℝ) :
    hav lat1 lon1 lat2 lon2 = hav lat2 lon2 lat1 lon1 := by
  simp only [hav]
  have ha : Real.sin (toRadians (lat2 - lat1) / 2) ^ 2 +
      Real.sin (toRadians (lon2 - lon1) / 2) ^ 2 * Real.cos (toRadians lat1) *
        Real.cos (toRadians lat2) =
      Real.sin (toRadians (lat1 - lat2) / 2) ^ 2 +
      Real.sin (toRadians (lon1 - lon2) / 2) ^ 2 * Real.cos (toRadians lat2) *
        Real.cos (toRadians lat1) := by
    unfold toRadians
    rw [show (lat2 - lat1) * (Real.pi / 180) / 2
          = -((lat1 - lat2) * (Real.pi / 180) / 2) by ring,
        show (lon2 - lon1) * (Real.pi / 180) / 2
          = -((lon1 - lon2) * (Real.pi / 180) / 2) by ring,
        Real.sin_neg, Real.sin_neg]
    ring
  rw [ha]

theorem hav_nonneg (lat1 lon1 lat2 lon2 : ℝ) : 0 ≤ hav lat1 lon1 lat2 lon2 := by
  simp only [hav, EARTH_RADIUS_KM]
  have h := atan2_nonneg
    (Real.sqrt (Real.sin (toRadians (lat2 - lat1) / 2) ^ 2 +
      Real.sin (toRadians (lon2 - lon1) / 2) ^ 2 * Real.cos (toRadians lat1) *
        Real.cos (toRadians lat2)))
    (Real.sqrt (1 - (Real.sin (toRadians (lat2 - lat1) / 2) ^ 2 +
      Real.sin (toRadians (lon2 - lon1) / 2) ^ 2 * Real.cos (toRadians lat1) *
        Real.cos (toRadians lat2))))
    (Real.sqrt_nonneg _)
  linarith

theorem calculateRequiredSpeed_pos (d Δ : ℝ) (hΔ : 0 < Δ) :
    calculateRequiredSpeed (.fin d) (.fin Δ) = .fin (d / (Δ / 60)) := by
  unfold calculateRequiredSpeed
  rw [if_neg (by rw [jsLe_fin_fin]; exact not_le.mpr hΔ)]
  rw [jsDiv_fin_fin Δ 60 (by norm_num), jsDiv_fin_fin d (Δ / 60)
    (div_pos hΔ (by norm_num)).ne']

/-! ### Branch evaluation lemmas for the feasibility evaluator -/

theorem bind_error_elim {α β : Type} (x : Except EvalError α)
    (f : α → Except EvalError β) (hf : ∀ y, ∃ r, f y = .ok r) (e : EvalError)
    (h : x.bind f = .error e) : x = .error e := by
  cases x with
  | error e' =>
      rw [show (Except.error e' : Except EvalError α).bind f
          = (.error e' : Except EvalError β) from rfl] at h
      obtain rfl : e' = e := by simpa using h
      rfl
  | ok y =>
      obtain ⟨r, hr⟩ := hf y
      rw [show Except.bind (Except.ok y) f = f y from rfl, hr] at h
      exact absurd h (by simp)

theorem isTravelPossible_notDate (l1 l2 : LoginEvent) (m : JSNum) (p : ℕ)
    (h : l1.timestamp = .notDate ∨ l2.timestamp = .notDate) :
    isTravelPossible l1 l2 m p = .error .invalidTimestamp := by
  unfold isTravelPossible
  rw [if_pos h]

theorem isTravelPossible_tie (l1 l2 : LoginEvent) (m : JSNum) (p : ℕ) (a : ℤ)
    (h1 : l1.timestamp = .date (some a)) (h2 : l2.timestamp = .date (some a)) :
    isTravelPossible l1 l2 m p =
      if l1.latitude = l2.latitude ∧ l1.longitude = l2.longitude then
        .ok ⟨true, .fin 0, m, .fin 0, .fin 0⟩
      else
        (haversineDistance l1.latitude l1.longitude l2.latitude l2.longitude).bind
          fun distanceKm =>
            .ok ⟨false, .posInf, m, jsRound p (.fin distanceKm), .fin 0⟩ := by
  unfold isTravelPossible
  rw [if_neg (by simp [h1, h2])]
  norm_num [h1, h2, JSTimestamp.getTime, jsLe, jsLt, jsSub, jsDiv, jsEqZero]

theorem isTravelPossible_lt (l1 l2 : LoginEvent) (m : JSNum) (p : ℕ) (a b : ℤ)
    (h1 : l1.timestamp = .date (some a)) (h2 : l2.timestamp = .date (some b))
    (hab : a < b) :
    isTravelPossible l1 l2 m p =
      (haversineDistance l1.latitude l1.longitude l2.latitude l2.longitude).bind
        fun distanceKm =>
          .ok ⟨jsLe (calculateRequiredSpeed (.fin distanceKm)
              (.fin (((b : ℝ) - (a : ℝ)) / (1000 * 60)))) m,
            jsRound p (calculateRequiredSpeed (.fin distanceKm)
              (.fin (((b : ℝ) - (a : ℝ)) / (1000 * 60)))),
            m, jsRound p (.fin distanceKm),
            jsRound p (.fin (((b : ℝ) - (a : ℝ)) / (1000 * 60)))⟩ := by
  have hab' : (a : ℝ) < (b : ℝ) := by exact_mod_cast hab
  unfold isTravelPossible
  rw [if_neg (by simp [h1, h2])]
  norm_num [h1, h2, JSTimestamp.getTime, jsLe, jsLt, jsSub, jsDiv, jsEqZero,
    hab'.le, not_lt.mpr hab'.le, div_eq_zero_iff, sub_eq_zero, hab'.ne']

theorem isTravelPossible_gt (l1 l2 : LoginEvent) (m : JSNum) (p : ℕ) (a b : ℤ)
    (h1 : l1.timestamp = .date (some a)) (h2 : l2.timestamp = .date (some b))
    (hab : b < a) :
    isTravelPossible l1 l2 m p =
      (haversineDistance l2.latitude l2.longitude l1.latitude l1.longitude).bind
        fun distanceKm =>
          .ok ⟨jsLe (calculateRequiredSpeed (.fin distanceKm)
              (.fin (((a : ℝ) - (b : ℝ)) / (1000 * 60)))) m,
            jsRound p (calculateRequiredSpeed (.fin distanceKm)
              (.fin (((a : ℝ) - (b : ℝ)) / (1000 * 60)))),
            m, jsRound p (.fin distanceKm),
            jsRound p (.fin (((a : ℝ) - (b : ℝ)) / (1000 * 60)))⟩ := by
  have hab' : (b : ℝ) < (a : ℝ) := by exact_mod_cast hab
  unfold isTravelPossible
  rw [if_neg (by simp [h1, h2])]
  norm_num [h1, h2, JSTimestamp.getTime, jsLe, jsLt, jsSub, jsDiv, jsEqZero,
    not_le.mpr hab', hab', div_eq_zero_iff, sub_eq_zero, hab'.ne']

theorem isTravelPossible_invalidDate (l1 l2 : LoginEvent) (m : JSNum) (p : ℕ) (b : ℤ)
    (h1 : l1.timestamp = .date none) (h2 : l2.timestamp = .date (some b)) :
    isTravelPossible l1 l2 m p = .ok ⟨true, .fin 0, m, .fin 0, .fin 0⟩ := by
  unfold isTravelPossible
  rw [if_neg (by simp [h1, h2])]
  norm_num [h1, h2, JSTimestamp.getTime, jsLe, jsLt, jsSub, jsDiv, jsEqZero]

theorem isTravelPossible_nanTime (l1 l2 : LoginEvent) (m : JSNum) (p : ℕ)
    (t1 : Option ℤ) (h1 : l1.timestamp = .date t1) (h2 : l2.timestamp = .date none) :
    isTravelPossible l1 l2 m p =
      (haversineDistance l2.latitude l2.longitude l2.latitude l2.longitude).bind
        fun distanceKm =>
          .ok ⟨false, .nan, m, jsRound p (.fin distanceKm), .nan⟩ := by
  unfold isTravelPossible
  rw [if_neg (by simp [h1, h2])]
  cases t1 <;>
    norm_num [h1, h2, JSTimestamp.getTime, jsLe, jsLt, jsSub, jsDiv, jsEqZero,
      calculateRequiredSpeed, jsRound]

theorem ok_bind {α β : Type} (y : α) (f : α → Except EvalError β) :
    (Except.ok y).bind f = f y := rfl

theorem jsRound_fin (p : ℕ) (x : ℝ) : jsRound p (.fin x) = .fin (roundTo p x) := rfl

theorem jsLe_fin_fin_false (x y : ℝ) (h : y < x) : jsLe (.fin x) (.fin y) = false := by
  rw [← Bool.not_eq_true, jsLe_fin_fin]
  exact not_le.mpr h

/-- Evaluation of the general branch: valid distinct timestamps and a
successful distance computation give the full five-field result, with the
time difference `|b - a| / 60000` minutes. -/
theorem isTravelPossible_general_eval (l1 l2 : LoginEvent) (m : JSNum) (p : ℕ)
    (a b : ℤ) (d : ℝ)
    (h1 : l1.timestamp = .date (some a)) (h2 : l2.timestamp = .date (some b))
    (hab : a ≠ b)
    (hd : haversineDistance l1.latitude l1.longitude l2.latitude l2.longitude = .ok d) :
    isTravelPossible l1 l2 m p =
      .ok ⟨jsLe (.fin (d / ((|(b : ℝ) - (a : ℝ)| / (1000 * 60)) / 60))) m,
        .fin (roundTo p (d / ((|(b : ℝ) - (a : ℝ)| / (1000 * 60)) / 60))),
        m, .fin (roundTo p d),
        .fin (roundTo p (|(b : ℝ) - (a : ℝ)| / (1000 * 60)))⟩ := by
  obtain ⟨hr1, hr2, hdv⟩ := haversineDistance_ok_elim _ _ _ _ d hd
  rcases hab.lt_or_lt with h | h
  · have habs : |(b : ℝ) - (a : ℝ)| = (b : ℝ) - (a : ℝ) :=
      abs_of_pos (by exact_mod_cast sub_pos.mpr h)
    rw [habs, isTravelPossible_lt l1 l2 m p a b h1 h2 h, hd]
    simp only [ok_bind]
    rw [calculateRequiredSpeed_pos _ _
      (div_pos (by exact_mod_cast sub_pos.mpr h) (by norm_num))]
    simp only [jsRound_fin]
  · have habs : |(b : ℝ) - (a : ℝ)| = (a : ℝ) - (b : ℝ) := by
      rw [abs_of_neg (by exact_mod_cast sub_neg.mpr h), neg_sub]
    have hd' : haversineDistance l2.latitude l2.longitude l1.latitude l1.longitude
        = .ok d := by
      rw [haversineDistance_ok _ _ _ _ hr2 hr1, ← hav_symm, ← hdv]
    rw [habs, isTravelPossible_gt l1 l2 m p a b h1 h2 h, hd']
    simp only [ok_bind]
    rw [calculateRequiredSpeed_pos _ _
      (div_pos (by exact_mod_cast sub_pos.mpr h) (by norm_num))]
    simp only [jsRound_fin]

/-- When both timestamps pass the `instanceof Date` check, every error the
evaluator can produce is a coordinate error. -/
theorem isTravelPossible_error_isCoord (l1 l2 : LoginEvent) (m : JSNum) (p : ℕ)
    (e : EvalError) (h1 : l1.timestamp ≠ .notDate) (h2 : l2.timestamp ≠ .notDate)
    (h : isTravelPossible l1 l2 m p = .error e) : e.isInvalidCoordinate = true := by
  obtain ⟨t1, ht1⟩ : ∃ t, l1.timestamp = .date t := by
    cases hx : l1.timestamp
    · exact absurd hx h1
    · exact ⟨_, rfl⟩
  obtain ⟨t2, ht2⟩ : ∃ t, l2.timestamp = .date t := by
    cases hx : l2.timestamp
    · exact absurd hx h2
    · exact ⟨_, rfl⟩
  cases t2 with
  | none =>
      rw [isTravelPossible_nanTime l1 l2 m p t1 ht1 ht2] at h
      exact haversineDistance_error_isCoord _ _ _ _ e
        (bind_error_elim _ _ (fun y => ⟨_, rfl⟩) e h)
  | some b =>
      cases t1 with
      | none =>
          rw [isTravelPossible_invalidDate l1 l2 m p b ht1 ht2] at h
          exact absurd h (by simp)
      | some a =>
          rcases lt_trichotomy a b with hab | rfl | hab
          · rw [isTravelPossible_lt l1 l2 m p a b ht1 ht2 hab] at h
            exact haversineDistance_error_isCoord _ _ _ _ e
              (bind_error_elim _ _ (fun y => ⟨_, rfl⟩) e h)
          · rw [isTravelPossible_tie l1 l2 m p a ht1 ht2] at h
            by_cases hs : l1.latitude = l2.latitude ∧ l1.longitude = l2.longitude
            · rw [if_pos hs] at h
              exact absurd h (by simp)
            · rw [if_neg hs] at h
              exact haversineDistance_error_isCoord _ _ _ _ e
                (bind_error_elim _ _ (fun y => ⟨_, rfl⟩) e h)
          · rw [isTravelPossible_gt l1 l2 m p a b ht1 ht2 hab] at h
            exact haversineDistance_error_isCoord _ _ _ _ e
              (bind_error_elim _ _ (fun y => ⟨_, rfl⟩) e h)

/-- The result of the evaluator, as a function of `maxSpeedKmh` only: either
every ceiling gives the same error, or there are a feasibility function `f`,
a rounded speed `s` and rounded distance/time fields such that every ceiling
`m` gives `.ok ⟨f m, s, m, dst, tdm⟩`.  In particular the error behaviour and
all fields except `possible` and the echo are independent of the ceiling. -/
theorem isTravelPossible_shape (l1 l2 : LoginEvent) (p : ℕ) :
    (∃ e, ∀ m, isTravelPossible l1 l2 m p = .error e) ∨
    (∃ (f : JSNum → Bool) (s dst tdm : JSNum), ∀ m,
      isTravelPossible l1 l2 m p = .ok ⟨f m, s, m, dst, tdm⟩) := by
  by_cases hnd : l1.timestamp = .notDate ∨ l2.timestamp = .notDate
  · exact Or.inl ⟨.invalidTimestamp, fun m => isTravelPossible_notDate l1 l2 m p hnd⟩
  · push_neg at hnd
    obtain ⟨t1, ht1⟩ : ∃ t, l1.timestamp = .date t := by
      cases hx : l1.timestamp
      · exact absurd hx hnd.1
      · exact ⟨_, rfl⟩
    obtain ⟨t2, ht2⟩ : ∃ t, l2.timestamp = .date t := by
      cases hx : l2.timestamp
      · exact absurd hx hnd.2
      · exact ⟨_, rfl⟩
    cases t2 with
    | none =>
        cases hh : haversineDistance l2.latitude l2.longitude l2.latitude l2.longitude with
        | error e =>
            refine Or.inl ⟨e, fun m => ?_⟩
            rw [isTravelPossible_nanTime l1 l2 m p t1 ht1 ht2, hh]
            rfl
        | ok d =>
            refine Or.inr ⟨fun _ => false, .nan, jsRound p (.fin d), .nan, fun m => ?_⟩
            rw [isTravelPossible_nanTime l1 l2 m p t1 ht1 ht2, hh, ok_bind]
    | some b =>
        cases t1 with
        | none =>
            exact Or.inr ⟨fun _ => true, .fin 0, .fin 0, .fin 0,
              fun m => isTravelPossible_invalidDate l1 l2 m p b ht1 ht2⟩
        | some a =>
            rcases lt_trichotomy a b with hab | rfl | hab
            · cases hh : haversineDistance l1.latitude l1.longitude
                  l2.latitude l2.longitude with
              | error e =>
                  refine Or.inl ⟨e, fun m => ?_⟩
                  rw [isTravelPossible_lt l1 l2 m p a b ht1 ht2 hab, hh]
                  rfl
              | ok d =>
                  refine Or.inr ⟨fun m => jsLe (calculateRequiredSpeed (.fin d)
                      (.fin (((b : ℝ) - (a : ℝ)) / (1000 * 60)))) m,
                    jsRound p (calculateRequiredSpeed (.fin d)
                      (.fin (((b : ℝ) - (a : ℝ)) / (1000 * 60)))),
                    jsRound p (.fin d),
                    jsRound p (.fin (((b : ℝ) - (a : ℝ)) / (1000 * 60))), fun m => ?_⟩
                  rw [isTravelPossible_lt l1 l2 m p a b ht1 ht2 hab, hh, ok_bind]
            · by_cases hs : l1.latitude = l2.latitude ∧ l1.longitude = l2.longitude
              · refine Or.inr ⟨fun _ => true, .fin 0, .fin 0, .fin 0, fun m => ?_⟩
                rw [isTravelPossible_tie l1 l2 m p a ht1 ht2, if_pos hs]
              · cases hh : haversineDistance l1.latitude l1.longitude
                    l2.latitude l2.longitude with
                | error e =>
                    refine Or.inl ⟨e, fun m => ?_⟩
                    rw [isTravelPossible_tie l1 l2 m p a ht1 ht2, if_neg hs, hh]
                    rfl
                | ok d =>
                    refine Or.inr ⟨fun _ => false, .posInf, jsRound p (.fin d), .fin 0,
                      fun m => ?_⟩
                    rw [isTravelPossible_tie l1 l2 m p a ht1 ht2, if_neg hs, hh, ok_bind]
            · cases hh : haversineDistance l2.latitude l2.longitude
                  l1.latitude l1.longitude with
              | error e =>
                  refine Or.inl ⟨e, fun m => ?_⟩
                  rw [isTravelPossible_gt l1 l2 m p a b ht1 ht2 hab, hh]
                  rfl
              | ok d =>
                  refine Or.inr ⟨fun m => jsLe (calculateRequiredSpeed (.fin d)
                      (.fin (((a : ℝ) - (b : ℝ)) / (1000 * 60)))) m,
                    jsRound p (calculateRequiredSpeed (.fin d)
                      (.fin (((a : ℝ) - (b : ℝ)) / (1000 * 60)))),
                    jsRound p (.fin d),
                    jsRound p (.fin (((a : ℝ) - (b : ℝ)) / (1000 * 60))), fun m => ?_⟩
                  rw [isTravelPossible_gt l1 l2 m p a b ht1 ht2 hab, hh, ok_bind]

/-! ### The claims -/

/-- Claim C1, counterexample to the claim as stated: both observations carry
latitude 91, outside [-90, 90], and share an identical timestamp and
identical coordinates, yet `isTravelPossible` succeeds with
`possible := true`: the zero-time same-place branch returns before any
coordinate validation. -/
theorem claim1_cex :
    isTravelPossible ⟨.date (some 0), 91, 0⟩ ⟨.date (some 0), 91, 0⟩ (.fin 1200) 2
      = .ok ⟨true, .fin 0, .fin 1200, .fin 0, .fin 0⟩ := by
  rw [isTravelPossible_tie _ _ _ _ 0 rfl rfl, if_pos ⟨rfl, rfl⟩]

/-- Claim C1 (amended): with both timestamps valid instants, an out-of-range
latitude or longitude makes evaluation fail with an InvalidCoordinate error —
except in the zero-time same-place case (equal timestamps and identical
coordinates), where the code returns success without validating. -/
theorem claim1_invalid_coordinates (l1 l2 : LoginEvent) (m : JSNum) (p : ℕ)
    (a b : ℤ)
    (h1 : l1.timestamp = .date (some a)) (h2 : l2.timestamp = .date (some b))
    (hc : ¬ (inRange l1.latitude l1.longitude ∧ inRange l2.latitude l2.longitude))
    (hno : ¬ (a = b ∧ l1.latitude = l2.latitude ∧ l1.longitude = l2.longitude)) :
    ∃ e, isTravelPossible l1 l2 m p = .error e ∧ e.isInvalidCoordinate = true := by
  rcases lt_trichotomy a b with hab | rfl | hab
  · obtain ⟨e, he, hec⟩ := haversineDistance_error l1.latitude l1.longitude
      l2.latitude l2.longitude hc
    refine ⟨e, ?_, hec⟩
    rw [isTravelPossible_lt l1 l2 m p a b h1 h2 hab, he]
    rfl
  · have hs : ¬ (l1.latitude = l2.latitude ∧ l1.longitude = l2.longitude) :=
      fun hs => hno ⟨rfl, hs⟩
    obtain ⟨e, he, hec⟩ := haversineDistance_error l1.latitude l1.longitude
      l2.latitude l2.longitude hc
    refine ⟨e, ?_, hec⟩
    rw [isTravelPossible_tie l1 l2 m p a h1 h2, if_neg hs, he]
    rfl
  · have hc' : ¬ (inRange l2.latitude l2.longitude ∧ inRange l1.latitude l1.longitude) :=
      fun hx => hc ⟨hx.2, hx.1⟩
    obtain ⟨e, he, hec⟩ := haversineDistance_error l2.latitude l2.longitude
      l1.latitude l1.longitude hc'
    refine ⟨e, ?_, hec⟩
    rw [isTravelPossible_gt l1 l2 m p a b h1 h2 hab, he]
    rfl

/-- Witness for the amended C1: latitude 91 with distinct timestamps. -/
theorem claim1_witness :
    ∃ e, isTravelPossible ⟨.date (some 0), 91, 0⟩ ⟨.date (some 60000), 0, 0⟩
        (.fin 1200) 2 = .error e ∧ e.isInvalidCoordinate = true :=
  claim1_invalid_coordinates _ _ _ _ 0 60000 rfl rfl
    (by norm_num [inRange]) (by norm_num)

/-- Claim C2, counterexample to the claim as stated: the first observation's
timestamp is an Invalid Date (a `Date` object holding NaN — not a well-formed
temporal instant), yet no error is raised: the code only checks
`instanceof Date`, and the evaluation returns a result. -/
theorem claim2_cex :
    isTravelPossible ⟨.date none, 10, 20⟩ ⟨.date (some 5), 30, 40⟩ (.fin 1200) 2
      = .ok ⟨true, .fin 0, .fin 1200, .fin 0, .fin 0⟩ :=
  isTravelPossible_invalidDate _ _ _ _ 5 rfl rfl

/-- Claim C2 (amended): evaluation fails with the InvalidTimestamp error
exactly when at least one of the two timestamps is not a `Date` object at
all; a `Date` whose time value is NaN passes the check. -/
theorem claim2_invalid_timestamp (l1 l2 : LoginEvent) (m : JSNum) (p : ℕ) :
    isTravelPossible l1 l2 m p = .error .invalidTimestamp ↔
      (l1.timestamp = .notDate ∨ l2.timestamp = .notDate) := by
  constructor
  · intro h
    by_contra hn
    push_neg at hn
    have hc := isTravelPossible_error_isCoord l1 l2 m p .invalidTimestamp
      hn.1 hn.2 h
    exact absurd hc (by simp [EvalError.isInvalidCoordinate])
  · exact isTravelPossible_notDate l1 l2 m p

/-- Claim C5: with exactly equal (valid) timestamps, identical coordinates
give the trivially feasible all-zero result, and differing coordinates give
an infeasible result with infinite required speed, zero elapsed minutes and
the rounded Haversine distance. -/
theorem claim5_zero_time (l1 l2 : LoginEvent) (m : JSNum) (p : ℕ) (a : ℤ)
    (h1 : l1.timestamp = .date (some a)) (h2 : l2.timestamp = .date (some a)) :
    (l1.latitude = l2.latitude ∧ l1.longitude = l2.longitude →
      isTravelPossible l1 l2 m p = .ok ⟨true, .fin 0, m, .fin 0, .fin 0⟩) ∧
    (∀ d : ℝ, ¬ (l1.latitude = l2.latitude ∧ l1.longitude = l2.longitude) →
      haversineDistance l1.latitude l1.longitude l2.latitude l2.longitude = .ok d →
      isTravelPossible l1 l2 m p =
        .ok ⟨false, .posInf, m, .fin (roundTo p d), .fin 0⟩) := by
  constructor
  · intro hs
    rw [isTravelPossible_tie l1 l2 m p a h1 h2, if_pos hs]
  · intro d hs hd
    rw [isTravelPossible_tie l1 l2 m p a h1 h2, if_neg hs, hd, ok_bind, jsRound_fin]

/-- Witness for C5: identical timestamps and identical coordinates. -/
theorem claim5_witness :
    isTravelPossible ⟨.date (some 7), 10, 20⟩ ⟨.date (some 7), 10, 20⟩ (.fin 1200) 2
      = .ok ⟨true, .fin 0, .fin 1200, .fin 0, .fin 0⟩ :=
  (claim5_zero_time _ _ _ 2 7 rfl rfl).1 ⟨rfl, rfl⟩

/-- Claim C7: the Haversine distance is symmetric under swapping the two
(validated) coordinate pairs. -/
theorem claim7_symmetry (lat1 lon1 lat2 lon2 : ℝ)
    (h1 : inRange lat1 lon1) (h2 : inRange lat2 lon2) :
    haversineDistance lat1 lon1 lat2 lon2 = haversineDistance lat2 lon2 lat1 lon1 := by
  rw [haversineDistance_ok _ _ _ _ h1 h2, haversineDistance_ok _ _ _ _ h2 h1, hav_symm]

/-- Witness for C7 at the points (10, 20) and (30, 40). -/
theorem claim7_witness :
    haversineDistance 10 20 30 40 = haversineDistance 30 40 10 20 :=
  claim7_symmetry 10 20 30 40 (by norm_num [inRange]) (by norm_num [inRange])

/-- Claim C9: the timestamp check runs before any coordinate validation, so
when a timestamp is not a `Date` and a coordinate is simultaneously out of
range, the InvalidTimestamp error is the one raised. -/
theorem claim9_timestamp_precedence (l1 l2 : LoginEvent) (m : JSNum) (p : ℕ)
    (ht : l1.timestamp = .notDate ∨ l2.timestamp = .notDate)
    (_hc : ¬ (inRange l1.latitude l1.longitude ∧ inRange l2.latitude l2.longitude)) :
    isTravelPossible l1 l2 m p = .error .invalidTimestamp :=
  isTravelPossible_notDate l1 l2 m p ht

/-- Witness for C9: a non-Date timestamp together with latitude 91. -/
theorem claim9_witness :
    isTravelPossible ⟨.notDate, 91, 0⟩ ⟨.date (some 0), 0, 0⟩ (.fin 1200) 2
      = .error .invalidTimestamp :=
  claim9_timestamp_precedence _ _ _ _ (Or.inl rfl) (by norm_num [inRange])

/-- Claim C3: for valid observations with a strictly positive time
difference, the evaluator returns possible := (requiredSpeed ≤ ceiling) with
requiredSpeedKmh = distanceKm / (timeDifferenceMinutes / 60), the three
numeric fields rounded to `decimalPrecision` digits, and the flag and the
ceiling echoed verbatim (the flag from the unrounded speed). -/
theorem claim3_general_branch (l1 l2 : LoginEvent) (m : JSNum) (p : ℕ)
    (a b : ℤ) (d : ℝ)
    (h1 : l1.timestamp = .date (some a)) (h2 : l2.timestamp = .date (some b))
    (hab : a ≠ b)
    (hd : haversineDistance l1.latitude l1.longitude l2.latitude l2.longitude = .ok d) :
    isTravelPossible l1 l2 m p =
      .ok ⟨jsLe (.fin (d / ((|(b : ℝ) - (a : ℝ)| / (1000 * 60)) / 60))) m,
        .fin (roundTo p (d / ((|(b : ℝ) - (a : ℝ)| / (1000 * 60)) / 60))),
        m, .fin (roundTo p d),
        .fin (roundTo p (|(b : ℝ) - (a : ℝ)| / (1000 * 60)))⟩ :=
  isTravelPossible_general_eval l1 l2 m p a b d h1 h2 hab hd

/-- Witness for C3: one minute apart at the same point, so the distance is 0,
the time difference one minute, and the required speed 0. -/
theorem claim3_witness :
    isTravelPossible ⟨.date (some 0), 10, 20⟩ ⟨.date (some 60000), 10, 20⟩
        (.fin 1200) 2 = .ok ⟨true, .fin 0, .fin 1200, .fin 0, .fin 1⟩ := by
  have h := claim3_general_branch ⟨.date (some 0), 10, 20⟩ ⟨.date (some 60000), 10, 20⟩
    (.fin 1200) 2 0 60000 0 rfl rfl (by norm_num)
    (by rw [haversineDistance_ok _ _ _ _ (by norm_num [inRange]) (by norm_num [inRange]),
      hav_self])
  rw [h]
  norm_num [roundTo, jsLe]

/-- Claim C4: for valid observations the evaluator is order-independent:
swapping the two arguments gives the identical result. -/
theorem claim4_order_independence (l1 l2 : LoginEvent) (m : JSNum) (p : ℕ)
    (a b : ℤ)
    (h1 : l1.timestamp = .date (some a)) (h2 : l2.timestamp = .date (some b))
    (hc1 : inRange l1.latitude l1.longitude) (hc2 : inRange l2.latitude l2.longitude) :
    isTravelPossible l1 l2 m p = isTravelPossible l2 l1 m p := by
  rcases lt_trichotomy a b with h | rfl | h
  · rw [isTravelPossible_lt l1 l2 m p a b h1 h2 h,
      isTravelPossible_gt l2 l1 m p b a h2 h1 h]
  · rw [isTravelPossible_tie l1 l2 m p a h1 h2, isTravelPossible_tie l2 l1 m p a h2 h1]
    by_cases hs : l1.latitude = l2.latitude ∧ l1.longitude = l2.longitude
    · rw [if_pos hs, if_pos ⟨hs.1.symm, hs.2.symm⟩]
    · rw [if_neg hs, if_neg (fun hx => hs ⟨hx.1.symm, hx.2.symm⟩)]
      rw [haversineDistance_ok _ _ _ _ hc1 hc2, haversineDistance_ok _ _ _ _ hc2 hc1,
        hav_symm]
  · rw [isTravelPossible_gt l1 l2 m p a b h1 h2 h,
      isTravelPossible_lt l2 l1 m p b a h2 h1 h]

/-- Witness for C4 at two distinct valid observations. -/
theorem claim4_witness :
    isTravelPossible ⟨.date (some 0), 10, 20⟩ ⟨.date (some 60000), 30, 40⟩
        (.fin 1200) 2
      = isTravelPossible ⟨.date (some 60000), 30, 40⟩ ⟨.date (some 0), 10, 20⟩
        (.fin 1200) 2 :=
  claim4_order_independence _ _ _ 2 0 60000 rfl rfl
    (by norm_num [inRange]) (by norm_num [inRange])

/-- Claim C6: the feasibility flag is computed from the unrounded required
speed, and the boundary is inclusive: when the exact required speed equals
the ceiling, the result is feasible. -/
theorem claim6_boundary_inclusive (l1 l2 : LoginEvent) (m : JSNum) (p : ℕ)
    (a b : ℤ) (d : ℝ)
    (h1 : l1.timestamp = .date (some a)) (h2 : l2.timestamp = .date (some b))
    (hab : a ≠ b)
    (hd : haversineDistance l1.latitude l1.longitude l2.latitude l2.longitude = .ok d) :
    ∃ r, isTravelPossible l1 l2 m p = .ok r ∧
      r.possible = jsLe (.fin (d / ((|(b : ℝ) - (a : ℝ)| / (1000 * 60)) / 60))) m ∧
      (m = .fin (d / ((|(b : ℝ) - (a : ℝ)| / (1000 * 60)) / 60)) →
        r.possible = true) := by
  refine ⟨_, isTravelPossible_general_eval l1 l2 m p a b d h1 h2 hab hd, rfl, ?_⟩
  rintro rfl
  exact (jsLe_fin_fin _ _).mpr le_rfl

/-- Witness for C6: required speed 0 with ceiling exactly 0 is feasible. -/
theorem claim6_witness :
    ∃ r, isTravelPossible ⟨.date (some 0), 10, 20⟩ ⟨.date (some 60000), 10, 20⟩
        (.fin 0) 2 = .ok r ∧ r.possible = true := by
  obtain ⟨r, hr, -, hb⟩ := claim6_boundary_inclusive ⟨.date (some 0), 10, 20⟩
    ⟨.date (some 60000), 10, 20⟩ (.fin 0) 2 0 60000 0 rfl rfl (by norm_num)
    (by rw [haversineDistance_ok _ _ _ _ (by norm_num [inRange]) (by norm_num [inRange]),
      hav_self])
  exact ⟨r, hr, hb (by norm_num)⟩

/-- Claim C8: for valid observations the returned (rounded) distance and
time-difference fields are nonnegative. -/
theorem claim8_nonneg (l1 l2 : LoginEvent) (m : JSNum) (p : ℕ) (a b : ℤ)
    (h1 : l1.timestamp = .date (some a)) (h2 : l2.timestamp = .date (some b))
    (hc1 : inRange l1.latitude l1.longitude) (hc2 : inRange l2.latitude l2.longitude) :
    ∃ r, isTravelPossible l1 l2 m p = .ok r ∧
      r.distanceKm.Nonneg ∧ r.timeDifferenceMinutes.Nonneg := by
  have hd : haversineDistance l1.latitude l1.longitude l2.latitude l2.longitude
      = .ok (hav l1.latitude l1.longitude l2.latitude l2.longitude) :=
    haversineDistance_ok _ _ _ _ hc1 hc2
  rcases eq_or_ne a b with rfl | hab
  · by_cases hs : l1.latitude = l2.latitude ∧ l1.longitude = l2.longitude
    · refine ⟨_, by rw [isTravelPossible_tie l1 l2 m p a h1 h2, if_pos hs], ?_, ?_⟩ <;>
        exact le_refl (0 : ℝ)
    · refine ⟨_, by rw [isTravelPossible_tie l1 l2 m p a h1 h2, if_neg hs, hd, ok_bind,
        jsRound_fin], ?_, ?_⟩
      · exact roundTo_nonneg p _ (hav_nonneg _ _ _ _)
      · exact le_refl (0 : ℝ)
  · refine ⟨_, isTravelPossible_general_eval l1 l2 m p a b _ h1 h2 hab hd, ?_, ?_⟩
    · exact roundTo_nonneg p _ (hav_nonneg _ _ _ _)
    · refine roundTo_nonneg p _ ?_
      positivity

/-- Witness for C8 at two distinct valid observations. -/
theorem claim8_witness :
    ∃ r, isTravelPossible ⟨.date (some 0), 10, 20⟩ ⟨.date (some 60000), 30, 40⟩
        (.fin 1200) 2 = .ok r ∧
      r.distanceKm.Nonneg ∧ r.timeDifferenceMinutes.Nonneg :=
  claim8_nonneg _ _ _ 2 0 60000 rfl rfl (by norm_num [inRange]) (by norm_num [inRange])

/-- Claim C10: `maxSpeedKmh` is never validated: the error behaviour of the
evaluator is independent of the ceiling, every successful result echoes the
ceiling verbatim in `maxAllowedSpeedKmh`, the feasibility flag is still
computed as requiredSpeed ≤ ceiling for every ceiling (zero, negative or
infinite), and with a negative ceiling any pair of valid observations with a
positive time difference is reported infeasible (the required speed, being
nonnegative, cannot be ≤ a negative ceiling). -/
theorem claim10_max_speed_unchecked (l1 l2 : LoginEvent) (m m' : JSNum) (p : ℕ) :
    (∀ e, isTravelPossible l1 l2 m p = .error e ↔
        isTravelPossible l1 l2 m' p = .error e) ∧
    (∀ r, isTravelPossible l1 l2 m p = .ok r → r.maxAllowedSpeedKmh = m) ∧
    (∀ (a b : ℤ) (m₀ : JSNum), l1.timestamp = .date (some a) →
      l2.timestamp = .date (some b) → a ≠ b →
      inRange l1.latitude l1.longitude → inRange l2.latitude l2.longitude →
      ∃ r, isTravelPossible l1 l2 m₀ p = .ok r ∧
        r.possible = jsLe (.fin (hav l1.latitude l1.longitude l2.latitude l2.longitude /
          ((|(b : ℝ) - (a : ℝ)| / (1000 * 60)) / 60))) m₀) ∧
    (∀ (a b : ℤ) (c : ℝ), l1.timestamp = .date (some a) →
      l2.timestamp = .date (some b) → a ≠ b →
      inRange l1.latitude l1.longitude → inRange l2.latitude l2.longitude →
      c < 0 → ∃ r, isTravelPossible l1 l2 (.fin c) p = .ok r ∧
        r.possible = false) := by
  refine ⟨?_, ?_, ?_, ?_⟩
  · intro e
    rcases isTravelPossible_shape l1 l2 p with ⟨e', he'⟩ | ⟨f, s, dst, tdm, hok⟩
    · rw [he' m, he' m']
    · rw [hok m, hok m']
      simp
  · intro r hr
    rcases isTravelPossible_shape l1 l2 p with ⟨e', he'⟩ | ⟨f, s, dst, tdm, hok⟩
    · rw [he' m] at hr
      exact absurd hr (by simp)
    · rw [hok m] at hr
      obtain rfl : (⟨f m, s, m, dst, tdm⟩ : TravelPossibility) = r := by simpa using hr
      rfl
  · intro a b m₀ h1 h2 hab hc1 hc2
    have hd : haversineDistance l1.latitude l1.longitude l2.latitude l2.longitude
        = .ok (hav l1.latitude l1.longitude l2.latitude l2.longitude) :=
      haversineDistance_ok _ _ _ _ hc1 hc2
    exact ⟨_, isTravelPossible_general_eval l1 l2 m₀ p a b _ h1 h2 hab hd, rfl⟩
  · intro a b c h1 h2 hab hc1 hc2 hcneg
    have hd : haversineDistance l1.latitude l1.longitude l2.latitude l2.longitude
        = .ok (hav l1.latitude l1.longitude l2.latitude l2.longitude) :=
      haversineDistance_ok _ _ _ _ hc1 hc2
    refine ⟨_, isTravelPossible_general_eval l1 l2 (.fin c) p a b _ h1 h2 hab hd, ?_⟩
    have hspeed : 0 ≤ hav l1.latitude l1.longitude l2.latitude l2.longitude /
        ((|(b : ℝ) - (a : ℝ)| / (1000 * 60)) / 60) := by
      have := hav_nonneg l1.latitude l1.longitude l2.latitude l2.longitude
      positivity
    exact jsLe_fin_fin_false _ _ (lt_of_lt_of_le hcneg hspeed)

/-- Witness for C10: a negative ceiling yields an infeasible verdict. -/
theorem claim10_witness :
    ∃ r, isTravelPossible ⟨.date (some 0), 10, 20⟩ ⟨.date (some 60000), 30, 40⟩
        (.fin (-5)) 2 = .ok r ∧ r.possible = false :=
  (claim10_max_speed_unchecked ⟨.date (some 0), 10, 20⟩ ⟨.date (some 60000), 30, 40⟩
      (.fin (-5)) (.fin (-5)) 2).2.2.2 0 60000 (-5) rfl rfl (by norm_num)
    (by norm_num [inRange]) (by norm_num [inRange]) (by norm_num)

end

end GeoTravel
